import Mathlib

/-!
Shallow embedding of `django-request-log` (`src/request_log/models.py`):
the `RequestParser` extractor functions, the `AbstractRequestLog`/`RequestLog`
record, `AbstractRequestLog.save`, `AbstractRequestLog.parse_request` and
`RequestLogManager.create_log`, together with theorems settling the spec
claims about them.

Modelling conventions:
- Python strings are Lean `String`s; Python string truthiness (`if s:`) is
  the test `s ≠ ""`.
- `request.META` and `request.headers` are partial maps `String → Option String`;
  `d.get(k, "")` is `(m k).getD ""`.
- A Python attribute that may be missing from the request object
  (`request.user`, `request.session`) is an `Option`; attribute access on a
  missing attribute raises `AttributeError`, modelled with `Except PyErr`.
- `django.utils.timezone.now` is modelled by explicit time parameters
  (`Nat` instants): the `DateTimeField(default=tz_now)` default is evaluated
  when the model instance is constructed, so `mkRequestLog` receives the
  construction-time instant, while `save` receives a separate commit-time
  instant that the source never consults.
- The database behind `Model.save` is a list of rows plus a primary-key
  counter; a failing storage write (constraint violation, lost connection)
  is modelled by a boolean oracle `storageFails`.
-/

namespace RequestLogModel

/-- A Django auth user object as seen by the parser: only its
`is_authenticated` flag is consulted; `uid` stands for its identity. -/
structure AuthUser where
  is_authenticated : Bool
  uid : Nat
deriving DecidableEq, Repr

/-- A Django session object: `session_key` is `None` (here `none`) for a
session that has not been persisted yet. -/
structure HttpSession where
  session_key : Option String
deriving DecidableEq, Repr

/-- The inbound `HttpRequest` as consumed by `RequestParser`.
`meta` is `request.META`, `headers` is the parsed `request.headers`
accessor; `user` and `session` are `none` when the corresponding attribute
is absent from the request object (no auth / session middleware ran). -/
structure HttpRequest where
  meta : String → Option String
  headers : String → Option String
  method : String
  path : String
  user : Option AuthUser
  session : Option HttpSession

/-- A raised Python exception: `attributeError a` models the
`AttributeError` raised when attribute `a` is missing. -/
inductive PyErr where
  | attributeError : String → PyErr
deriving DecidableEq, Repr

/-- Python's `s.split(",")` on the character list of `s`: always returns a
non-empty list of (possibly empty) chunks between commas. -/
def pySplitCommaAux : List Char → List (List Char)
  | [] => [[]]
  | c :: cs =>
    let rest := pySplitCommaAux cs
    if c = ',' then [] :: rest
    else
      match rest with
      | [] => [[c]]
      | p :: ps => (c :: p) :: ps

/-- Python's `s.split(",")`. -/
def pySplitComma (s : String) : List String :=
  (pySplitCommaAux s.data).map String.mk

/-- Python's `x or ""` for an optional string `x` (both `None` and the empty
string are falsy and coalesce to `""`). -/
def pyOrEmptyStr : Option String → String
  | none => ""
  | some s => if s = "" then "" else s

namespace RequestParser

/-- `RequestParser.parse_remote_addr` (models.py lines 39-54):
read `META["X_FORWARDED_FOR"]` defaulting to `""`; if truthy, return the
first chunk of its comma-split; otherwise return `META["REMOTE_ADDR"]`
defaulting to `""`. -/
def parse_remote_addr (request : HttpRequest) : String :=
  let x_forwarded_for := (request.meta "X_FORWARDED_FOR").getD ""
  if x_forwarded_for ≠ "" then (pySplitComma x_forwarded_for).headD ""
  else (request.meta "REMOTE_ADDR").getD ""

/-- The `user` property (models.py lines 56-60): `request.user` attribute
access may raise; an authenticated user is returned as-is, otherwise `None`. -/
def user (request : HttpRequest) : Except PyErr (Option AuthUser) :=
  match request.user with
  | none => .error (.attributeError "user")
  | some u => .ok (if u.is_authenticated then some u else none)

/-- The `session_key` property (models.py lines 62-64):
`request.session.session_key or ""`; `request.session` attribute access may
raise. -/
def session_key (request : HttpRequest) : Except PyErr String :=
  match request.session with
  | none => .error (.attributeError "session")
  | some s => .ok (pyOrEmptyStr s.session_key)

/-- The `http_method` property: `request.method`. -/
def http_method (request : HttpRequest) : String :=
  request.method

/-- The `request_path` property: `request.path`. -/
def request_path (request : HttpRequest) : String :=
  request.path

/-- The `query_string` property: `request.META.get("QUERY_STRING", "")`. -/
def query_string (request : HttpRequest) : String :=
  (request.meta "QUERY_STRING").getD ""

/-- The `http_user_agent` property: `request.headers.get("User-Agent", "")`. -/
def http_user_agent (request : HttpRequest) : String :=
  (request.headers "User-Agent").getD ""

/-- The `http_referer` property: `request.headers.get("Referer", "")`. -/
def http_referer (request : HttpRequest) : String :=
  (request.headers "Referer").getD ""

/-- The `remote_addr` property: delegates to `parse_remote_addr`. -/
def remote_addr (request : HttpRequest) : String :=
  parse_remote_addr request

end RequestParser

/-- A `RequestLog` row: the `AbstractRequestLog` fields plus the concrete
subclass's `category` and `label` columns and the primary key `id`
(`none` until the row is saved). -/
structure RequestLog where
  id : Option Nat
  user : Option AuthUser
  session_key : String
  http_method : String
  request_path : String
  query_string : String
  http_user_agent : String
  http_referer : String
  remote_addr : String
  timestamp : Nat
  category : String
  label : String
deriving DecidableEq, Repr

/-- `RequestLog(category=category, label=label)`: Django model instantiation
with all other fields left at their declared defaults; the
`timestamp = DateTimeField(default=tz_now)` default is evaluated here, at
construction time `now`. (Python defaults both `category` and `label`
to `""` when the caller omits them.) -/
def mkRequestLog (now : Nat) (category label : String) : RequestLog :=
  { id := none
    user := none
    session_key := ""
    http_method := ""
    request_path := ""
    query_string := ""
    http_user_agent := ""
    http_referer := ""
    remote_addr := ""
    timestamp := now
    category := category
    label := label }

/-- `AbstractRequestLog.parse_request` (models.py lines 127-137): set the
eight request-derived fields from a `RequestParser` over `request`, in
source order; a raised `AttributeError` from the `user` or `session_key`
property propagates. -/
def parse_request (log : RequestLog) (request : HttpRequest) :
    Except PyErr RequestLog := do
  let u ← RequestParser.user request
  let sk ← RequestParser.session_key request
  pure { log with
    user := u
    session_key := sk
    http_method := RequestParser.http_method request
    request_path := RequestParser.request_path request
    query_string := RequestParser.query_string request
    http_user_agent := RequestParser.http_user_agent request
    http_referer := RequestParser.http_referer request
    remote_addr := RequestParser.remote_addr request }

/-- A storage-layer failure raised by the database during `Model.save`. -/
inductive StorageErr where
  | writeFailed
deriving DecidableEq, Repr

/-- The database behind the Django ORM: the persisted rows and the next
primary key to assign. -/
structure Db where
  rows : List RequestLog
  next_id : Nat
deriving DecidableEq, Repr

/-- `AbstractRequestLog.save` (models.py lines 123-125): delegate to
`super().save(...)` — a single atomic insert that assigns the primary key —
then `return self`. `storageFails` is the oracle for a storage-layer
failure, which propagates and leaves the database untouched. `commitTime`
is the instant at which the write happens; the source never reads it
(the timestamp default was already applied at construction). -/
def save (storageFails : Bool) (commitTime : Nat) (log : RequestLog)
    (db : Db) : Except StorageErr RequestLog × Db :=
  if storageFails then (.error .writeFailed, db)
  else
    let saved := { log with id := some db.next_id }
    (.ok saved, { rows := db.rows ++ [saved], next_id := db.next_id + 1 })

/-- An error escaping `create_log`: either a Python exception from parsing
the request or a storage failure from the write. -/
inductive LogErr where
  | py : PyErr → LogErr
  | storage : StorageErr → LogErr
deriving DecidableEq, Repr

/-- `RequestLogManager.create_log` (models.py lines 140-146):
`log = RequestLog(category=category, label=label)` (constructed at instant
`now`), `log.parse_request(request)`, `return log.save()` (the write
happening at instant `commitTime`). Any exception propagates unmodified,
returning the database as the failed step left it. -/
def create_log (storageFails : Bool) (now commitTime : Nat)
    (request : HttpRequest) (category label : String) (db : Db) :
    Except LogErr RequestLog × Db :=
  let log := mkRequestLog now category label
  match parse_request log request with
  | .error e => (.error (.py e), db)
  | .ok parsed =>
    match save storageFails commitTime parsed db with
    | (.error e, db2) => (.error (.storage e), db2)
    | (.ok saved, db2) => (.ok saved, db2)

/-! ### Helper lemmas about the comma split -/

theorem pySplitCommaAux_ne_nil (l : List Char) : pySplitCommaAux l ≠ [] := by
  cases l with
  | nil => simp [pySplitCommaAux]
  | cons c cs =>
    simp only [pySplitCommaAux]
    by_cases hc : c = ','
    · simp [hc]
    · simp only [hc, if_false]
      cases pySplitCommaAux cs <;> simp

theorem pySplitCommaAux_headD (l : List Char) :
    (pySplitCommaAux l).headD [] = l.takeWhile (fun c => c ≠ ',') := by
  induction l with
  | nil => simp [pySplitCommaAux]
  | cons c cs ih =>
    by_cases hc : c = ','
    · subst hc
      simp [pySplitCommaAux, List.takeWhile_cons]
    · cases h : pySplitCommaAux cs with
      | nil => exact absurd h (pySplitCommaAux_ne_nil cs)
      | cons p ps =>
        rw [h] at ih
        simp only [List.headD_cons] at ih
        simp [pySplitCommaAux, h, hc, List.takeWhile_cons, ih]

theorem pySplitComma_headD (s : String) :
    (pySplitComma s).headD "" =
      String.mk (s.data.takeWhile (fun c => c ≠ ',')) := by
  unfold pySplitComma
  cases h : pySplitCommaAux s.data with
  | nil => exact absurd h (pySplitCommaAux_ne_nil s.data)
  | cons p ps =>
    have hh := pySplitCommaAux_headD s.data
    rw [h] at hh
    simp only [List.headD_cons] at hh
    simp [hh]

/-! ### Concrete requests used in counterexamples and witnesses -/

/-- A request whose forwarding header's first entry carries surrounding
whitespace: `META["X_FORWARDED_FOR"] = " 10.0.0.1,10.0.0.2"`. -/
def reqPaddedXff : HttpRequest :=
  { meta := fun k =>
      if k = "X_FORWARDED_FOR" then some " 10.0.0.1,10.0.0.2"
      else if k = "REMOTE_ADDR" then some "192.168.0.1"
      else none
    headers := fun _ => none
    method := "GET"
    path := "/"
    user := none
    session := none }

/-- A request whose forwarding header is a single space (whitespace-only),
with a direct transport source address present. -/
def reqBlankXff : HttpRequest :=
  { meta := fun k =>
      if k = "X_FORWARDED_FOR" then some " "
      else if k = "REMOTE_ADDR" then some "192.168.0.1"
      else none
    headers := fun _ => none
    method := "GET"
    path := "/"
    user := none
    session := none }

/-- A request with no META entries, no headers, no user and no session. -/
def reqBare : HttpRequest :=
  { meta := fun _ => none
    headers := fun _ => none
    method := "GET"
    path := "/"
    user := none
    session := none }

/-! ### C1 -/

/-- Python's `s.strip()`: the string with leading and trailing whitespace
removed. -/
def pyStrip (s : String) : String :=
  String.mk
    (((s.data.dropWhile Char.isWhitespace).reverse.dropWhile
      Char.isWhitespace).reverse)

/-- The claim's reading of step 1 of `resolve_remote_address`: the first
comma-separated entry of the forwarding header, trimmed of surrounding
whitespace. -/
def firstEntryTrimmed (header : String) : String :=
  pyStrip ((pySplitComma header).headD "")

/-- C1 (counterexample): on the header `" 10.0.0.1,10.0.0.2"` (present and
non-empty), `parse_remote_addr` returns `" 10.0.0.1"` with its leading
space, which differs from the trimmed first entry `"10.0.0.1"` the claim
promises. -/
theorem C1_counterexample_no_trim :
    reqPaddedXff.meta "X_FORWARDED_FOR" = some " 10.0.0.1,10.0.0.2" ∧
    (" 10.0.0.1,10.0.0.2" : String) ≠ "" ∧
    RequestParser.parse_remote_addr reqPaddedXff = " 10.0.0.1" ∧
    firstEntryTrimmed " 10.0.0.1,10.0.0.2" = "10.0.0.1" ∧
    RequestParser.parse_remote_addr reqPaddedXff ≠
      firstEntryTrimmed " 10.0.0.1,10.0.0.2" := by
  refine ⟨by decide, by decide, by decide, by decide, by decide⟩

/-- C1 (amended): for every request whose forwarding header is present and
non-empty, `parse_remote_addr` returns exactly the first comma-separated
entry of that header — its longest comma-free prefix — unmodified, with no
trimming of surrounding whitespace. -/
theorem C1_first_entry_untrimmed (r : HttpRequest) (h : String)
    (hm : r.meta "X_FORWARDED_FOR" = some h) (hne : h ≠ "") :
    RequestParser.parse_remote_addr r =
      String.mk (h.data.takeWhile (fun c => c ≠ ',')) := by
  unfold RequestParser.parse_remote_addr
  rw [hm]
  show (if h ≠ "" then (pySplitComma h).headD "" else
    (r.meta "REMOTE_ADDR").getD "") = _
  rw [if_pos hne]
  exact pySplitComma_headD h

/-- Witness for `C1_first_entry_untrimmed` at the concrete padded header. -/
theorem C1_first_entry_untrimmed_witness :
    RequestParser.parse_remote_addr reqPaddedXff =
      String.mk ((" 10.0.0.1,10.0.0.2" : String).data.takeWhile
        (fun c => c ≠ ',')) :=
  C1_first_entry_untrimmed reqPaddedXff " 10.0.0.1,10.0.0.2" rfl (by decide)

/-! ### C2 -/

/-- C2 (counterexample): a forwarding header containing only whitespace is
truthy in Python, so `parse_remote_addr` returns the whitespace string
itself instead of falling through to `REMOTE_ADDR = "192.168.0.1"`. -/
theorem C2_counterexample_whitespace_header :
    reqBlankXff.meta "X_FORWARDED_FOR" = some " " ∧
    reqBlankXff.meta "REMOTE_ADDR" = some "192.168.0.1" ∧
    RequestParser.parse_remote_addr reqBlankXff = " " ∧
    RequestParser.parse_remote_addr reqBlankXff ≠ "192.168.0.1" := by
  refine ⟨by decide, by decide, by decide, by decide⟩

/-- C2 (amended): for every request whose forwarding header is absent or the
empty string, `parse_remote_addr` falls through and returns the direct
transport-layer source address `META["REMOTE_ADDR"]` (defaulting to `""`);
a whitespace-only header does not fall through. -/
theorem C2_absent_or_empty_falls_through (r : HttpRequest)
    (hm : r.meta "X_FORWARDED_FOR" = none ∨
      r.meta "X_FORWARDED_FOR" = some "") :
    RequestParser.parse_remote_addr r = (r.meta "REMOTE_ADDR").getD "" := by
  unfold RequestParser.parse_remote_addr
  rcases hm with hm | hm <;> rw [hm] <;> simp

/-- Witness for `C2_absent_or_empty_falls_through` on the bare request. -/
theorem C2_absent_or_empty_falls_through_witness :
    RequestParser.parse_remote_addr reqBare =
      (reqBare.meta "REMOTE_ADDR").getD "" :=
  C2_absent_or_empty_falls_through reqBare (Or.inl rfl)

/-! ### C8 -/

/-- C8: for every request with neither a forwarding header nor a direct
transport-layer source address in its META, `parse_remote_addr` returns the
empty string (and, being a total function, never throws). -/
theorem C8_neither_available_empty (r : HttpRequest)
    (h1 : r.meta "X_FORWARDED_FOR" = none)
    (h2 : r.meta "REMOTE_ADDR" = none) :
    RequestParser.parse_remote_addr r = "" := by
  unfold RequestParser.parse_remote_addr
  rw [h1, h2]
  simp

/-- Witness for `C8_neither_available_empty` on the bare request. -/
theorem C8_neither_available_empty_witness :
    RequestParser.parse_remote_addr reqBare = "" :=
  C8_neither_available_empty reqBare rfl rfl

/-! ### C3, C4, C10: the identity / session extractors -/

/-- `true` iff the computation returned normally (did not raise). -/
def returnedOk {ε α : Type} : Except ε α → Bool
  | .ok _ => true
  | .error _ => false

/-- An authenticated user object. -/
def authUserU : AuthUser :=
  { is_authenticated := true, uid := 7 }

/-- An anonymous (unauthenticated) user object. -/
def anonUser : AuthUser :=
  { is_authenticated := false, uid := 0 }

/-- A session object that has not been persisted: its key is `None`. -/
def keylessSession : HttpSession :=
  { session_key := none }

/-- A persisted session object with key `"abc123"`. -/
def namedSession : HttpSession :=
  { session_key := some "abc123" }

/-- An authenticated request with a persisted session. -/
def reqAuth : HttpRequest :=
  { meta := fun _ => none
    headers := fun _ => none
    method := "GET"
    path := "/"
    user := some authUserU
    session := some namedSession }

/-- An anonymous request whose session exists but has no key. -/
def reqAnonKeyless : HttpRequest :=
  { meta := fun _ => none
    headers := fun _ => none
    method := "GET"
    path := "/"
    user := some anonUser
    session := some keylessSession }

/-- C3 (counterexample): on a request object lacking the `user` and
`session` attributes entirely — exactly the "incomplete request object" the
claim covers — both extractors raise `AttributeError` instead of degrading
to their defaults. -/
theorem C3_counterexample_missing_attrs_throw :
    reqBare.user = none ∧ reqBare.session = none ∧
    RequestParser.user reqBare =
      Except.error (PyErr.attributeError "user") ∧
    RequestParser.session_key reqBare =
      Except.error (PyErr.attributeError "session") :=
  ⟨rfl, rfl, rfl, rfl⟩

/-- C3 (amended): for every request object that carries a user object and a
session object — however incomplete: unauthenticated user, session with no
key — the extractors never throw and degrade gracefully to their defaults
(null identity, empty-string session key). A request object missing the
`user` or `session` attribute itself makes the corresponding extractor
raise `AttributeError`. -/
theorem C3_graceful_when_attrs_present (r : HttpRequest) (u : AuthUser)
    (s : HttpSession) (hu : r.user = some u) (hs : r.session = some s) :
    returnedOk (RequestParser.user r) = true ∧
    returnedOk (RequestParser.session_key r) = true ∧
    (u.is_authenticated = false → RequestParser.user r = .ok none) ∧
    (s.session_key = none → RequestParser.session_key r = .ok "") := by
  unfold RequestParser.user RequestParser.session_key
  rw [hu, hs]
  refine ⟨rfl, rfl, ?_, ?_⟩
  · intro h
    simp [h]
  · intro h
    simp [h, pyOrEmptyStr]

/-- Witness for `C3_graceful_when_attrs_present` on the anonymous,
keyless-session request. -/
theorem C3_graceful_when_attrs_present_witness :
    returnedOk (RequestParser.user reqAnonKeyless) = true ∧
    returnedOk (RequestParser.session_key reqAnonKeyless) = true ∧
    (anonUser.is_authenticated = false →
      RequestParser.user reqAnonKeyless = .ok none) ∧
    (keylessSession.session_key = none →
      RequestParser.session_key reqAnonKeyless = .ok "") :=
  C3_graceful_when_attrs_present reqAnonKeyless anonUser keylessSession
    rfl rfl

/-- C4: for every request carrying a user object, the `user` property
returns that same object when it is authenticated, and returns null when it
is anonymous/unauthenticated — in both cases returning normally, never
throwing. -/
theorem C4_user_identity (r : HttpRequest) (u : AuthUser)
    (hu : r.user = some u) :
    (u.is_authenticated = true → RequestParser.user r = .ok (some u)) ∧
    (u.is_authenticated = false → RequestParser.user r = .ok none) := by
  unfold RequestParser.user
  rw [hu]
  constructor <;> intro h <;> simp [h]

/-- Witness for `C4_user_identity`: the authenticated request yields its own
user object, the anonymous one yields null. -/
theorem C4_user_identity_witness :
    RequestParser.user reqAuth = .ok (some authUserU) ∧
    RequestParser.user reqAnonKeyless = .ok none :=
  ⟨(C4_user_identity reqAuth authUserU rfl).1 rfl,
   (C4_user_identity reqAnonKeyless anonUser rfl).2 rfl⟩

/-- C10: for every request whose session object exists but whose session
key is falsy (`None`, or the empty string), the `session_key` property
coalesces it to the empty string rather than null. -/
theorem C10_falsy_key_coalesced (r : HttpRequest) (s : HttpSession)
    (hs : r.session = some s)
    (hk : s.session_key = none ∨ s.session_key = some "") :
    RequestParser.session_key r = .ok "" := by
  unfold RequestParser.session_key
  rw [hs]
  rcases hk with hk | hk <;> simp [hk, pyOrEmptyStr]

/-- Witness for `C10_falsy_key_coalesced` on the keyless-session request. -/
theorem C10_falsy_key_coalesced_witness :
    RequestParser.session_key reqAnonKeyless = .ok "" :=
  C10_falsy_key_coalesced reqAnonKeyless keylessSession rfl (Or.inl rfl)

/-! ### Helper lemmas about `parse_request`, `save` and `create_log` -/

theorem except_bind_error {ε α β : Type} (e : ε) (f : α → Except ε β) :
    (Except.error e : Except ε α) >>= f = Except.error e := rfl

theorem except_bind_ok {ε α β : Type} (a : α) (f : α → Except ε β) :
    (Except.ok a : Except ε α) >>= f = f a := rfl

/-- Characterization of a successful `parse_request`: the eight
request-derived fields are overwritten, the rest of the record is carried
over unchanged. -/
theorem parse_request_ok (log : RequestLog) (request : HttpRequest)
    (u : Option AuthUser) (sk : String)
    (hu : RequestParser.user request = .ok u)
    (hs : RequestParser.session_key request = .ok sk) :
    parse_request log request = .ok
      { log with
        user := u
        session_key := sk
        http_method := RequestParser.http_method request
        request_path := RequestParser.request_path request
        query_string := RequestParser.query_string request
        http_user_agent := RequestParser.http_user_agent request
        http_referer := RequestParser.http_referer request
        remote_addr := RequestParser.remote_addr request } := by
  unfold parse_request
  rw [hu, except_bind_ok, hs, except_bind_ok]
  rfl

/-- Frame part of `parse_request`: a successful parse never changes the
primary key, the timestamp, the category or the label. -/
theorem parse_request_frame (log : RequestLog) (request : HttpRequest)
    (log2 : RequestLog) (h : parse_request log request = .ok log2) :
    log2.id = log.id ∧ log2.timestamp = log.timestamp ∧
    log2.category = log.category ∧ log2.label = log.label := by
  unfold parse_request at h
  cases hu : RequestParser.user request with
  | error e =>
    rw [hu, except_bind_error] at h
    exact Except.noConfusion h
  | ok u =>
    rw [hu, except_bind_ok] at h
    cases hs : RequestParser.session_key request with
    | error e =>
      rw [hs, except_bind_error] at h
      exact Except.noConfusion h
    | ok sk =>
      rw [hs, except_bind_ok] at h
      have h2 := Except.ok.inj h
      subst h2
      exact ⟨rfl, rfl, rfl, rfl⟩

/-- `create_log` with a healthy storage layer: the parsed record is
inserted with the next primary key and returned. -/
theorem create_log_save_ok (now commitTime : Nat) (request : HttpRequest)
    (category label : String) (db : Db) (parsed : RequestLog)
    (hp : parse_request (mkRequestLog now category label) request =
      .ok parsed) :
    create_log false now commitTime request category label db =
      (.ok { parsed with id := some db.next_id },
       { rows := db.rows ++ [{ parsed with id := some db.next_id }]
         next_id := db.next_id + 1 }) := by
  unfold create_log
  simp only [hp]
  rfl

/-- `create_log` with a failing storage layer: the storage error propagates
and the database is returned untouched. -/
theorem create_log_save_fail (now commitTime : Nat) (request : HttpRequest)
    (category label : String) (db : Db) (parsed : RequestLog)
    (hp : parse_request (mkRequestLog now category label) request =
      .ok parsed) :
    create_log true now commitTime request category label db =
      (.error (.storage .writeFailed), db) := by
  unfold create_log
  simp only [hp]
  rfl

/-! ### C6 -/

/-- C6: for every call to `create_log` on which the storage write fails,
the storage failure propagates to the caller unmodified (no retry, no
swallowing), no record is returned, and the database is left exactly as it
was — no partial record is persisted. -/
theorem C6_storage_failure_propagates (now commitTime : Nat)
    (request : HttpRequest) (category label : String) (db : Db)
    (parsed : RequestLog)
    (hp : parse_request (mkRequestLog now category label) request =
      .ok parsed) :
    create_log true now commitTime request category label db =
      (.error (.storage .writeFailed), db) :=
  create_log_save_fail now commitTime request category label db parsed hp

/-! ### C5 -/

/-- C5: every call to `create_log` that returns a record yields one whose
`category` and `label` exactly equal the arguments and whose `timestamp` is
the record-construction instant `now` — independent of the storage-commit
instant `commitTime`, because the `tz_now` default is evaluated when
`RequestLog(...)` is instantiated and `save` never touches the field. -/
theorem C5_category_label_timestamp (storageFails : Bool)
    (now commitTime : Nat) (request : HttpRequest)
    (category label : String) (db : Db) (rec : RequestLog) (db2 : Db)
    (h : create_log storageFails now commitTime request category label db =
      (.ok rec, db2)) :
    rec.category = category ∧ rec.label = label ∧ rec.timestamp = now := by
  cases hp : parse_request (mkRequestLog now category label) request with
  | error e =>
    unfold create_log at h
    simp only [hp] at h
    simp at h
  | ok parsed =>
    cases storageFails with
    | true =>
      rw [create_log_save_fail now commitTime request category label db
        parsed hp] at h
      simp at h
    | false =>
      rw [create_log_save_ok now commitTime request category label db
        parsed hp] at h
      simp only [Prod.mk.injEq, Except.ok.injEq] at h
      obtain ⟨hrec, -⟩ := h
      obtain ⟨-, hts, hcat, hlab⟩ := parse_request_frame _ _ _ hp
      subst hrec
      exact ⟨hcat, hlab, hts⟩

/-! ### C7 -/

/-- C7: `create_log` neither deduplicates nor is idempotent — each call
performs exactly one durable write (one new row), and two calls with an
identical request produce two distinct persisted records: equal in every
field except the storage-assigned primary key. -/
theorem C7_two_calls_two_records (now commitTime : Nat)
    (request : HttpRequest) (category label : String) (db : Db)
    (parsed r1 r2 : RequestLog) (db1 db2 : Db)
    (hp : parse_request (mkRequestLog now category label) request =
      .ok parsed)
    (h1 : create_log false now commitTime request category label db =
      (.ok r1, db1))
    (h2 : create_log false now commitTime request category label db1 =
      (.ok r2, db2)) :
    db1.rows = db.rows ++ [r1] ∧
    db2.rows = db.rows ++ [r1, r2] ∧
    r1.id ≠ r2.id ∧
    { r1 with id := none } = { r2 with id := none } := by
  rw [create_log_save_ok now commitTime request category label db
    parsed hp] at h1
  simp only [Prod.mk.injEq, Except.ok.injEq] at h1
  obtain ⟨hr1, hdb1⟩ := h1
  subst hr1
  subst hdb1
  rw [create_log_save_ok now commitTime request category label _
    parsed hp] at h2
  simp only [Prod.mk.injEq, Except.ok.injEq] at h2
  obtain ⟨hr2, hdb2⟩ := h2
  subst hr2
  subst hdb2
  refine ⟨rfl, ?_, ?_, rfl⟩
  · show (db.rows ++ _) ++ _ = _
    simp
  · show some db.next_id ≠ some (db.next_id + 1)
    simp

/-! ### C9 -/

/-- C9: for every request on which the extractors return normally,
`parse_request` assigns exactly the eight request-derived fields (`user`,
`session_key`, `http_method`, `request_path`, `query_string`,
`http_user_agent`, `http_referer`, `remote_addr`) and leaves every other
field of the record — in particular `id`, `category`, `label` and
`timestamp` — unchanged, as the record-update form of the conclusion makes
explicit. -/
theorem C9_parse_request_exact_effect (log : RequestLog)
    (request : HttpRequest) (u : Option AuthUser) (sk : String)
    (hu : RequestParser.user request = .ok u)
    (hs : RequestParser.session_key request = .ok sk) :
    parse_request log request = .ok
      { log with
        user := u
        session_key := sk
        http_method := RequestParser.http_method request
        request_path := RequestParser.request_path request
        query_string := RequestParser.query_string request
        http_user_agent := RequestParser.http_user_agent request
        http_referer := RequestParser.http_referer request
        remote_addr := RequestParser.remote_addr request } :=
  parse_request_ok log request u sk hu hs

/-! ### Concrete factory runs used as witnesses -/

/-- The empty database: no rows, first primary key `1`. -/
def dbEmpty : Db :=
  { rows := [], next_id := 1 }

/-- What `parse_request (mkRequestLog 5 "foo" "bar") reqAuth` yields. -/
def parsedRecExample : RequestLog :=
  { id := none
    user := some authUserU
    session_key := "abc123"
    http_method := "GET"
    request_path := "/"
    query_string := ""
    http_user_agent := ""
    http_referer := ""
    remote_addr := ""
    timestamp := 5
    category := "foo"
    label := "bar" }

/-- The first record persisted from `reqAuth` into `dbEmpty`. -/
def savedRecExample : RequestLog :=
  { parsedRecExample with id := some 1 }

/-- The database after the first `create_log` call. -/
def dbAfterExample : Db :=
  { rows := [savedRecExample], next_id := 2 }

/-- The second record persisted from the identical request. -/
def savedRecExample2 : RequestLog :=
  { parsedRecExample with id := some 2 }

/-- The database after the second `create_log` call. -/
def dbAfterExample2 : Db :=
  { rows := [savedRecExample, savedRecExample2], next_id := 3 }

/-- Witness for `C5_category_label_timestamp`: a concrete call constructed
at instant 5 and committed at instant 9 echoes `"foo"`/`"bar"` and carries
timestamp 5. -/
theorem C5_category_label_timestamp_witness :
    savedRecExample.category = "foo" ∧ savedRecExample.label = "bar" ∧
    savedRecExample.timestamp = 5 :=
  C5_category_label_timestamp false 5 9 reqAuth "foo" "bar" dbEmpty
    savedRecExample dbAfterExample (by rfl)

/-- Witness for `C6_storage_failure_propagates` on a concrete failing
write. -/
theorem C6_storage_failure_propagates_witness :
    create_log true 5 9 reqAuth "foo" "bar" dbEmpty =
      (.error (.storage .writeFailed), dbEmpty) :=
  C6_storage_failure_propagates 5 9 reqAuth "foo" "bar" dbEmpty
    parsedRecExample (by rfl)

/-- Witness for `C7_two_calls_two_records`: two concrete calls with the
identical request append two rows that differ only in their primary key. -/
theorem C7_two_calls_two_records_witness :
    dbAfterExample.rows = dbEmpty.rows ++ [savedRecExample] ∧
    dbAfterExample2.rows =
      dbEmpty.rows ++ [savedRecExample, savedRecExample2] ∧
    savedRecExample.id ≠ savedRecExample2.id ∧
    { savedRecExample with id := none } =
      { savedRecExample2 with id := none } :=
  C7_two_calls_two_records 5 9 reqAuth "foo" "bar" dbEmpty parsedRecExample
    savedRecExample savedRecExample2 dbAfterExample dbAfterExample2
    (by rfl) (by rfl) (by rfl)

/-- Witness for `C9_parse_request_exact_effect` on the authenticated
request. -/
theorem C9_parse_request_exact_effect_witness :
    parse_request (mkRequestLog 5 "foo" "bar") reqAuth = .ok
      { mkRequestLog 5 "foo" "bar" with
        user := some authUserU
        session_key := "abc123"
        http_method := RequestParser.http_method reqAuth
        request_path := RequestParser.request_path reqAuth
        query_string := RequestParser.query_string reqAuth
        http_user_agent := RequestParser.http_user_agent reqAuth
        http_referer := RequestParser.http_referer reqAuth
        remote_addr := RequestParser.remote_addr reqAuth } :=
  C9_parse_request_exact_effect (mkRequestLog 5 "foo" "bar") reqAuth
    (some authUserU) "abc123" rfl rfl

end RequestLogModel
